import Mathlib

/-!
Verification of the quiz-attempt controller of `pdf-to-quiz`
(`src/app/quiz/[id]/attempt/page.tsx`).

The component keeps its session state in React `useState` hooks; we model
that state as one record and each handler as a pure state transformer.
Machine numbers are modelled as `Int`/`Nat`; the JS object
`answers : Record<number, OptionKey>` is modelled as a total function
`Nat → Option OptionKey` (a key bound to JS `undefined` and an absent key
are both `none`, which is exactly how every read site — `answers[qNum]`
truthiness — observes them).  External effects (the `attempts` insert sent
to the persistence backend) are modelled as an event list appended to the
state; routing and the `quizzes` status update have no bearing on the
claims and are not modelled.
-/

namespace PdfToQuiz

/-- The four answer choices (`OptionKey` in `src/types`). -/
inductive OptionKey
  | A
  | B
  | C
  | D
deriving DecidableEq, Repr

/-- A question row as mapped from the backend in the load effect. -/
structure Question where
  id : String
  quizId : String
  questionNumber : Nat
  questionText : String
  optionA : String
  optionB : String
  optionC : String
  optionD : String
  correctOption : Option OptionKey
deriving DecidableEq, Repr

/-- A quiz row as mapped from the backend in the load effect. -/
structure Quiz where
  id : String
  userId : String
  title : String
  pdfUrl : String
  answerKeyUrl : Option String
  timerMinutes : Nat
  status : String
  totalQuestions : Nat
deriving DecidableEq, Repr

/-- The payload of the `attempts` insert emitted by `handleSubmit`. -/
structure AttemptEvent where
  quiz_id : String
  user_id : String
  answers : Nat → Option OptionKey
  score : Option Nat
  total_questions : Nat
  is_graded : Bool

/-- The session state of `QuizAttemptPage`: the `useState` hooks plus the
ambient auth user and route parameter, plus the list of persistence events
emitted so far. -/
structure AttemptState where
  user : Option String
  quizId : String
  quiz : Option Quiz
  questions : List Question
  answers : Nat → Option OptionKey
  currentQ : Nat
  visited : Finset Nat
  markedForReview : Finset Nat
  timeLeft : Int
  submitted : Bool
  loading : Bool
  events : List AttemptEvent

/-- The hooks' initial values: `quiz = null`, `questions = []`,
`answers = {}`, `currentQ = 0`, `visited = new Set([0])`,
`markedForReview = new Set()`, `timeLeft = 0`, `submitted = false`,
`loading = true`. -/
def initialState (uid : Option String) (qid : String) : AttemptState :=
  { user := uid
    quizId := qid
    quiz := none
    questions := []
    answers := fun _ => none
    currentQ := 0
    visited := {0}
    markedForReview := ∅
    timeLeft := 0
    submitted := false
    loading := true
    events := [] }

/-- Completion of the load effect: stores the quiz, sets
`timeLeft = timerMinutes * 60`, stores the (possibly empty) question list
and clears `loading`.  (The error path routes away and never clears
`loading`, so it is outside every claim.) -/
def loadComplete (s : AttemptState) (qz : Quiz) (qs : List Question) :
    AttemptState :=
  { s with
    quiz := some qz
    timeLeft := (qz.timerMinutes * 60 : Nat)
    questions := qs
    loading := false }

/-- The row inserted into `attempts` by `handleSubmit`:
`{ quiz_id, user_id, answers, score: null,
   total_questions: questions.length || 50, is_graded: false }`. -/
def submitPayload (s : AttemptState) (uid : String) : AttemptEvent :=
  { quiz_id := s.quizId
    user_id := uid
    answers := s.answers
    score := none
    total_questions := if s.questions.length = 0 then 50 else s.questions.length
    is_graded := false }

/-- `handleSubmit`: `if (submitted || !user || !quiz) return;` then
`setSubmitted(true)` and the `attempts` insert. -/
def handleSubmit (s : AttemptState) : AttemptState :=
  if s.submitted then s
  else
    match s.user, s.quiz with
    | some uid, some _ =>
        { s with
          submitted := true
          events := s.events ++ [submitPayload s uid] }
    | _, _ => s

/-- One firing of the countdown interval, together with the effect's guard:
the interval exists only when `timeLeft > 0 && !submitted && !loading`, and
the callback runs `prev <= 1 ? (handleSubmit(); 0) : prev - 1`. -/
def timerTick (s : AttemptState) : AttemptState :=
  if s.timeLeft ≤ 0 ∨ s.submitted = true ∨ s.loading = true then s
  else if s.timeLeft ≤ 1 then { handleSubmit s with timeLeft := 0 }
  else { s with timeLeft := s.timeLeft - 1 }

/-- `goToQuestion(index)`: bounds-checked navigation; in bounds it sets
`currentQ` and adds the index to `visited`. -/
def goToQuestion (s : AttemptState) (index : Int) : AttemptState :=
  if index < 0 ∨ (s.questions.length : Int) ≤ index then s
  else
    { s with
      currentQ := index.toNat
      visited := insert index.toNat s.visited }

/-- `selectAnswer(qNum, option)`: no-op when `submitted`; otherwise stores
`prev[qNum] === option ? undefined : option` under key `qNum`. -/
def selectAnswer (s : AttemptState) (qNum : Nat) (opt : OptionKey) :
    AttemptState :=
  if s.submitted then s
  else
    { s with
      answers := fun n =>
        if n = qNum then
          if s.answers qNum = some opt then none else some opt
        else s.answers n }

/-- `saveAndNext()`: `if (currentQ < questions.length - 1) goToQuestion(currentQ + 1)`. -/
def saveAndNext (s : AttemptState) : AttemptState :=
  if (s.currentQ : Int) < (s.questions.length : Int) - 1 then
    goToQuestion s ((s.currentQ : Int) + 1)
  else s

/-- `saveAndMarkForReview()`: add `currentQ` to `markedForReview`, then the
same conditional advance as `saveAndNext`. -/
def saveAndMarkForReview (s : AttemptState) : AttemptState :=
  let s1 := { s with markedForReview := insert s.currentQ s.markedForReview }
  if (s1.currentQ : Int) < (s1.questions.length : Int) - 1 then
    goToQuestion s1 ((s1.currentQ : Int) + 1)
  else s1

/-- `markForReviewAndNext()`: add `currentQ` to `markedForReview`; read
`qNum = questions[currentQ]?.questionNumber` and, when truthy, delete
`answers[qNum]`; then the same conditional advance as `saveAndNext`. -/
def markForReviewAndNext (s : AttemptState) : AttemptState :=
  let s1 := { s with markedForReview := insert s.currentQ s.markedForReview }
  let s2 :=
    match s1.questions.get? s1.currentQ with
    | some q =>
        if q.questionNumber = 0 then s1
        else
          { s1 with
            answers := fun n =>
              if n = q.questionNumber then none else s1.answers n }
    | none => s1
  if (s2.currentQ : Int) < (s2.questions.length : Int) - 1 then
    goToQuestion s2 ((s2.currentQ : Int) + 1)
  else s2

/-- `clearResponse()`: read `qNum = questions[currentQ]?.questionNumber`
and, when truthy, delete `answers[qNum]`; then remove `currentQ` from
`markedForReview`. -/
def clearResponse (s : AttemptState) : AttemptState :=
  let s1 :=
    match s.questions.get? s.currentQ with
    | some q =>
        if q.questionNumber = 0 then s
        else
          { s with
            answers := fun n =>
              if n = q.questionNumber then none else s.answers n }
    | none => s
  { s1 with markedForReview := s1.markedForReview.erase s.currentQ }

/-- The four derived per-question statuses. -/
inductive QuestionStatus
  | notVisited
  | notAnswered
  | answered
  | review
deriving DecidableEq, Repr

/-- `getQuestionStatus(index)` as written in the source:
review check first; then `qNum = questions[index]?.questionNumber` and
`if (qNum && answers[qNum]) return 'answered'`; then the visited check. -/
def getQuestionStatus (s : AttemptState) (index : Nat) : QuestionStatus :=
  if index ∈ s.markedForReview then .review
  else
    match s.questions.get? index with
    | some q =>
        if q.questionNumber ≠ 0 ∧ (s.answers q.questionNumber).isSome then
          .answered
        else if index ∈ s.visited then .notAnswered
        else .notVisited
    | none =>
        if index ∈ s.visited then .notAnswered
        else .notVisited

/-- Status derivation as the spec words it (§4 of the spec): review if
marked, else answered if the question's number has a non-empty entry in
`answers`, else not-answered if visited, else not-visited.  Used as the
comparison point for the refinement claim about `getQuestionStatus`. -/
def specStatus (s : AttemptState) (index : Nat) : QuestionStatus :=
  if index ∈ s.markedForReview then .review
  else
    match s.questions.get? index with
    | some q =>
        if (s.answers q.questionNumber).isSome then .answered
        else if index ∈ s.visited then .notAnswered
        else .notVisited
    | none =>
        if index ∈ s.visited then .notAnswered
        else .notVisited

/-- The three render branches of the page: the loading screen, the
"No questions found" screen (`questions.length === 0`), and the exam
screen. -/
inductive PageView
  | loadingView
  | noQuestionsView
  | examView
deriving DecidableEq, Repr

/-- The page's render dispatch: `if (loading) ...; if (questions.length === 0) ...;`
else the exam layout. -/
def renderView (s : AttemptState) : PageView :=
  if s.loading then .loadingView
  else if s.questions.length = 0 then .noQuestionsView
  else .examView

/-- The user-triggerable events of the rendered page. -/
inductive UIAction
  | clickGrid (idx : Nat)
  | clickOption (opt : OptionKey)
  | clickSaveNext
  | clickSaveMarkReview
  | clickClearResponse
  | clickMarkReviewNext
  | clickBack
  | clickNext
  | clickSubmit
deriving DecidableEq, Repr

/-- One UI event as dispatched by the rendered page, including each
button's `disabled` guard: the question-grid buttons and the option cards
carry no `disabled` attribute; the four action-bar buttons and SUBMIT are
`disabled={submitted}`; BACK is `disabled={currentQ === 0 || submitted}`;
NEXT is `disabled={currentQ === totalQ - 1 || submitted}`. -/
def uiStep (s : AttemptState) (a : UIAction) : AttemptState :=
  match a with
  | .clickGrid idx => goToQuestion s (idx : Int)
  | .clickOption opt =>
      match s.questions.get? s.currentQ with
      | some q => selectAnswer s q.questionNumber opt
      | none => s
  | .clickSaveNext => if s.submitted then s else saveAndNext s
  | .clickSaveMarkReview => if s.submitted then s else saveAndMarkForReview s
  | .clickClearResponse => if s.submitted then s else clearResponse s
  | .clickMarkReviewNext => if s.submitted then s else markForReviewAndNext s
  | .clickBack =>
      if s.currentQ = 0 ∨ s.submitted then s
      else goToQuestion s ((s.currentQ : Int) - 1)
  | .clickNext =>
      if s.currentQ = s.questions.length - 1 ∨ s.submitted then s
      else goToQuestion s ((s.currentQ : Int) + 1)
  | .clickSubmit => if s.submitted then s else handleSubmit s

/-! ### Sample states used by witnesses and counterexamples -/

/-- A concrete quiz row. -/
def sampleQuiz : Quiz :=
  { id := "z1"
    userId := "u1"
    title := "t"
    pdfUrl := "p"
    answerKeyUrl := none
    timerMinutes := 30
    status := "ready"
    totalQuestions := 2 }

/-- A concrete question row with the given question number. -/
def sampleQuestion (n : Nat) : Question :=
  { id := "q"
    quizId := "z1"
    questionNumber := n
    questionText := "qt"
    optionA := "a"
    optionB := "b"
    optionC := "c"
    optionD := "d"
    correctOption := none }

/-- A session just after a successful load of two questions. -/
def readyState : AttemptState :=
  loadComplete (initialState (some "u1") "z1") sampleQuiz
    [sampleQuestion 1, sampleQuestion 2]

/-- `readyState` with question 1 answered `A`. -/
def answeredState : AttemptState :=
  { readyState with answers := fun n => if n = 1 then some OptionKey.A else none }

/-! ### Helper lemmas -/

theorem handleSubmit_of_submitted {s : AttemptState} (h : s.submitted = true) :
    handleSubmit s = s := by
  simp [handleSubmit, h]

theorem handleSubmit_not_submitted {s : AttemptState} {u : String} {z : Quiz}
    (hns : s.submitted = false) (hu : s.user = some u) (hz : s.quiz = some z) :
    handleSubmit s =
      { s with submitted := true, events := s.events ++ [submitPayload s u] } := by
  simp [handleSubmit, hns, hu, hz]

theorem goToQuestion_answers (s : AttemptState) (i : Int) :
    (goToQuestion s i).answers = s.answers := by
  unfold goToQuestion
  split <;> rfl

theorem goToQuestion_questions (s : AttemptState) (i : Int) :
    (goToQuestion s i).questions = s.questions := by
  unfold goToQuestion
  split <;> rfl

theorem goToQuestion_markedForReview (s : AttemptState) (i : Int) :
    (goToQuestion s i).markedForReview = s.markedForReview := by
  unfold goToQuestion
  split <;> rfl

theorem goToQuestion_submitted (s : AttemptState) (i : Int) :
    (goToQuestion s i).submitted = s.submitted := by
  unfold goToQuestion
  split <;> rfl

theorem goToQuestion_of_out_of_bounds {s : AttemptState} {i : Int}
    (h : i < 0 ∨ (s.questions.length : Int) ≤ i) : goToQuestion s i = s := by
  unfold goToQuestion
  rw [if_pos h]

theorem goToQuestion_currentQ_of_inbounds {s : AttemptState} {i : Int}
    (h0 : 0 ≤ i) (h1 : i < (s.questions.length : Int)) :
    (goToQuestion s i).currentQ = i.toNat := by
  unfold goToQuestion
  split
  · omega
  · rfl

theorem goToQuestion_visited_of_inbounds {s : AttemptState} {i : Int}
    (h0 : 0 ≤ i) (h1 : i < (s.questions.length : Int)) :
    i.toNat ∈ (goToQuestion s i).visited := by
  unfold goToQuestion
  split
  · omega
  · exact Finset.mem_insert_self _ _

theorem goToQuestion_currentQ_lt {s : AttemptState} {i : Int}
    (h : s.currentQ < s.questions.length) :
    (goToQuestion s i).currentQ < s.questions.length := by
  unfold goToQuestion
  split
  · exact h
  · rename_i h2
    push_neg at h2
    simp only
    omega

theorem goToQuestion_advance {s : AttemptState}
    (h : (s.currentQ : Int) < (s.questions.length : Int) - 1) :
    (goToQuestion s ((s.currentQ : Int) + 1)).currentQ = s.currentQ + 1 := by
  rw [goToQuestion_currentQ_of_inbounds (by omega) (by omega)]
  omega

theorem saveAndNext_currentQ (s : AttemptState) :
    (saveAndNext s).currentQ =
      if (s.currentQ : Int) < (s.questions.length : Int) - 1 then s.currentQ + 1
      else s.currentQ := by
  unfold saveAndNext
  split
  · rename_i h
    exact goToQuestion_advance h
  · rfl

theorem saveAndMarkForReview_answers (s : AttemptState) :
    (saveAndMarkForReview s).answers = s.answers := by
  simp only [saveAndMarkForReview]
  split
  · rw [goToQuestion_answers]
  · rfl

theorem saveAndMarkForReview_markedForReview (s : AttemptState) :
    (saveAndMarkForReview s).markedForReview =
      insert s.currentQ s.markedForReview := by
  simp only [saveAndMarkForReview]
  split
  · rw [goToQuestion_markedForReview]
  · rfl

theorem saveAndMarkForReview_currentQ (s : AttemptState) :
    (saveAndMarkForReview s).currentQ =
      if (s.currentQ : Int) < (s.questions.length : Int) - 1 then s.currentQ + 1
      else s.currentQ := by
  simp only [saveAndMarkForReview]
  split
  · rename_i h
    exact goToQuestion_advance h
  · rfl

theorem selectAnswer_currentQ (s : AttemptState) (qn : Nat) (X : OptionKey) :
    (selectAnswer s qn X).currentQ = s.currentQ := by
  unfold selectAnswer
  split <;> rfl

theorem selectAnswer_questions (s : AttemptState) (qn : Nat) (X : OptionKey) :
    (selectAnswer s qn X).questions = s.questions := by
  unfold selectAnswer
  split <;> rfl

theorem selectAnswer_loading (s : AttemptState) (qn : Nat) (X : OptionKey) :
    (selectAnswer s qn X).loading = s.loading := by
  unfold selectAnswer
  split <;> rfl

theorem handleSubmit_currentQ (s : AttemptState) :
    (handleSubmit s).currentQ = s.currentQ := by
  unfold handleSubmit
  split
  · rfl
  · split <;> rfl

theorem handleSubmit_questions (s : AttemptState) :
    (handleSubmit s).questions = s.questions := by
  unfold handleSubmit
  split
  · rfl
  · split <;> rfl

theorem handleSubmit_loading (s : AttemptState) :
    (handleSubmit s).loading = s.loading := by
  unfold handleSubmit
  split
  · rfl
  · split <;> rfl

theorem timerTick_currentQ (s : AttemptState) :
    (timerTick s).currentQ = s.currentQ := by
  unfold timerTick
  split
  · rfl
  · split
    · exact handleSubmit_currentQ s
    · rfl

theorem timerTick_questions (s : AttemptState) :
    (timerTick s).questions = s.questions := by
  unfold timerTick
  split
  · rfl
  · split
    · exact handleSubmit_questions s
    · rfl

theorem timerTick_loading (s : AttemptState) :
    (timerTick s).loading = s.loading := by
  unfold timerTick
  split
  · rfl
  · split
    · exact handleSubmit_loading s
    · rfl

theorem saveAndNext_questions (s : AttemptState) :
    (saveAndNext s).questions = s.questions := by
  unfold saveAndNext
  split
  · rw [goToQuestion_questions]
  · rfl

theorem saveAndNext_loading (s : AttemptState) :
    (saveAndNext s).loading = s.loading := by
  unfold saveAndNext goToQuestion
  split
  · split <;> rfl
  · rfl

theorem goToQuestion_loading (s : AttemptState) (i : Int) :
    (goToQuestion s i).loading = s.loading := by
  unfold goToQuestion
  split <;> rfl

theorem saveAndMarkForReview_questions (s : AttemptState) :
    (saveAndMarkForReview s).questions = s.questions := by
  simp only [saveAndMarkForReview]
  split
  · rw [goToQuestion_questions]
  · rfl

theorem saveAndMarkForReview_loading (s : AttemptState) :
    (saveAndMarkForReview s).loading = s.loading := by
  simp only [saveAndMarkForReview]
  split
  · rw [goToQuestion_loading]
  · rfl

theorem clearResponse_currentQ (s : AttemptState) :
    (clearResponse s).currentQ = s.currentQ := by
  simp only [clearResponse]
  split
  · split <;> rfl
  · rfl

theorem clearResponse_questions (s : AttemptState) :
    (clearResponse s).questions = s.questions := by
  simp only [clearResponse]
  split
  · split <;> rfl
  · rfl

theorem clearResponse_loading (s : AttemptState) :
    (clearResponse s).loading = s.loading := by
  simp only [clearResponse]
  split
  · split <;> rfl
  · rfl

theorem advance_step_currentQ (t : AttemptState) :
    (if (t.currentQ : Int) < (t.questions.length : Int) - 1 then
        goToQuestion t ((t.currentQ : Int) + 1)
      else t).currentQ =
      if (t.currentQ : Int) < (t.questions.length : Int) - 1 then t.currentQ + 1
      else t.currentQ := by
  split
  · rename_i h
    exact goToQuestion_advance h
  · rfl

theorem markForReviewAndNext_questions (s : AttemptState) :
    (markForReviewAndNext s).questions = s.questions := by
  simp only [markForReviewAndNext]
  cases hg : s.questions.get? s.currentQ <;> dsimp only
  case none =>
    split
    · rw [goToQuestion_questions]
    · rfl
  case some q =>
    split <;> split <;> first | rw [goToQuestion_questions] | rfl

theorem markForReviewAndNext_loading (s : AttemptState) :
    (markForReviewAndNext s).loading = s.loading := by
  simp only [markForReviewAndNext]
  cases hg : s.questions.get? s.currentQ <;> dsimp only
  case none =>
    split
    · rw [goToQuestion_loading]
    · rfl
  case some q =>
    split <;> split <;> first | rw [goToQuestion_loading] | rfl

theorem markForReviewAndNext_currentQ (s : AttemptState) :
    (markForReviewAndNext s).currentQ =
      if (s.currentQ : Int) < (s.questions.length : Int) - 1 then s.currentQ + 1
      else s.currentQ := by
  simp only [markForReviewAndNext]
  cases hg : s.questions.get? s.currentQ <;> dsimp only
  case none =>
    exact advance_step_currentQ
      { s with markedForReview := insert s.currentQ s.markedForReview }
  case some q =>
    split
    · exact advance_step_currentQ
        { s with markedForReview := insert s.currentQ s.markedForReview }
    · exact advance_step_currentQ
        { s with
          answers := fun n => if n = q.questionNumber then none else s.answers n
          markedForReview := insert s.currentQ s.markedForReview }

theorem markForReviewAndNext_markedForReview (s : AttemptState) :
    (markForReviewAndNext s).markedForReview =
      insert s.currentQ s.markedForReview := by
  simp only [markForReviewAndNext]
  cases hg : s.questions.get? s.currentQ <;> dsimp only
  case none =>
    split
    · rw [goToQuestion_markedForReview]
    · rfl
  case some q =>
    split <;> split <;> first | rw [goToQuestion_markedForReview] | rfl

theorem markForReviewAndNext_answers_cleared {s : AttemptState} {q : Question}
    (hq : s.questions.get? s.currentQ = some q) (hn : q.questionNumber ≠ 0) :
    (markForReviewAndNext s).answers q.questionNumber = none := by
  simp only [markForReviewAndNext]
  rw [hq]
  dsimp only
  rw [if_neg hn]
  split
  · rw [goToQuestion_answers]
    simp
  · simp

theorem getQuestionStatus_ne_notVisited {s : AttemptState} {i : Nat}
    (h : i ∈ s.visited) :
    getQuestionStatus s i ≠ QuestionStatus.notVisited := by
  unfold getQuestionStatus
  split
  · simp
  · split <;> simp [h]
    split <;> simp

theorem uiStep_questions (s : AttemptState) (a : UIAction) :
    (uiStep s a).questions = s.questions := by
  cases a <;> simp only [uiStep]
  case clickGrid idx => exact goToQuestion_questions s _
  case clickOption opt =>
    cases s.questions.get? s.currentQ with
    | some q => exact selectAnswer_questions s _ _
    | none => rfl
  case clickSaveNext =>
    split
    · rfl
    · exact saveAndNext_questions s
  case clickSaveMarkReview =>
    split
    · rfl
    · exact saveAndMarkForReview_questions s
  case clickClearResponse =>
    split
    · rfl
    · exact clearResponse_questions s
  case clickMarkReviewNext =>
    split
    · rfl
    · exact markForReviewAndNext_questions s
  case clickBack =>
    split
    · rfl
    · exact goToQuestion_questions s _
  case clickNext =>
    split
    · rfl
    · exact goToQuestion_questions s _
  case clickSubmit =>
    split
    · rfl
    · exact handleSubmit_questions s

theorem uiStep_loading (s : AttemptState) (a : UIAction) :
    (uiStep s a).loading = s.loading := by
  cases a <;> simp only [uiStep]
  case clickGrid idx => exact goToQuestion_loading s _
  case clickOption opt =>
    cases s.questions.get? s.currentQ with
    | some q => exact selectAnswer_loading s _ _
    | none => rfl
  case clickSaveNext =>
    split
    · rfl
    · exact saveAndNext_loading s
  case clickSaveMarkReview =>
    split
    · rfl
    · exact saveAndMarkForReview_loading s
  case clickClearResponse =>
    split
    · rfl
    · exact clearResponse_loading s
  case clickMarkReviewNext =>
    split
    · rfl
    · exact markForReviewAndNext_loading s
  case clickBack =>
    split
    · rfl
    · exact goToQuestion_loading s _
  case clickNext =>
    split
    · rfl
    · exact goToQuestion_loading s _
  case clickSubmit =>
    split
    · rfl
    · exact handleSubmit_loading s

/-! ### Claim theorems -/

/-- C1: submission is exactly-once.  When `submitted` already holds,
`handleSubmit` changes nothing and emits nothing; from an unsubmitted
state with an authenticated user and a loaded quiz, any positive number
of `handleSubmit` triggers equals a single one, which flips `submitted`
from false to true and appends exactly one persistence event carrying the
quiz id, user id, frozen answers and total-question count, leaving the
answer map itself unchanged. -/
theorem submit_exactly_once (s : AttemptState) (u : String) (z : Quiz)
    (n : Nat) :
    (s.submitted = true → handleSubmit s = s) ∧
    (s.user = some u → s.quiz = some z → s.submitted = false → 1 ≤ n →
      handleSubmit^[n] s = handleSubmit s ∧
      (handleSubmit s).submitted = true ∧
      (handleSubmit s).events = s.events ++ [submitPayload s u] ∧
      (handleSubmit s).answers = s.answers) := by
  refine ⟨fun h => handleSubmit_of_submitted h, fun hu hz hns hn => ?_⟩
  have hs' := handleSubmit_not_submitted hns hu hz
  have hsub : (handleSubmit s).submitted = true := by rw [hs']
  obtain ⟨m, rfl⟩ : ∃ m, n = m + 1 := ⟨n - 1, by omega⟩
  refine ⟨?_, hsub, by rw [hs'], by rw [hs']⟩
  rw [Function.iterate_succ_apply]
  exact Function.iterate_fixed (handleSubmit_of_submitted hsub) m

/-- Witness for C1 at a concrete loaded session: three triggers yield a
submitted state with exactly one appended event. -/
theorem submit_exactly_once_witness :
    (handleSubmit^[3] readyState).submitted = true ∧
    (handleSubmit^[3] readyState).events =
      readyState.events ++ [submitPayload readyState "u1"] := by
  obtain ⟨he, hsub, hev, -⟩ :=
    (submit_exactly_once readyState "u1" sampleQuiz 3).2 rfl rfl rfl (by decide)
  exact ⟨by rw [he]; exact hsub, by rw [he]; exact hev⟩

/-- C3: `getQuestionStatus` agrees with the spec's strict first-match
precedence (review, then answered, then not-answered, then not-visited)
whenever every loaded question carries a positive question number, and a
marked index always reports `review`, answered or not. -/
theorem status_precedence (s : AttemptState) (i : Nat)
    (hq : ∀ q ∈ s.questions, 1 ≤ q.questionNumber) :
    getQuestionStatus s i = specStatus s i ∧
    (i ∈ s.markedForReview → getQuestionStatus s i = .review) := by
  constructor
  · by_cases hm : i ∈ s.markedForReview
    · simp [getQuestionStatus, specStatus, hm]
    · unfold getQuestionStatus specStatus
      rw [if_neg hm, if_neg hm]
      cases hg : s.questions.get? i with
      | none => rfl
      | some q =>
          have h0 : q.questionNumber ≠ 0 := by
            have := hq q (List.get?_mem hg)
            omega
          simp [h0]
  · intro hm
    simp [getQuestionStatus, hm]

/-- Witness for C3: on a state whose question 0 is both marked for review
and answered, code and spec derivation agree and both give `review`. -/
theorem status_precedence_witness :
    getQuestionStatus
        { answeredState with markedForReview := {0} } 0 =
      specStatus { answeredState with markedForReview := {0} } 0 ∧
    getQuestionStatus { answeredState with markedForReview := {0} } 0 =
      QuestionStatus.review := by
  obtain ⟨h1, h2⟩ :=
    status_precedence { answeredState with markedForReview := {0} } 0 (by decide)
  exact ⟨h1, h2 (by decide)⟩

/-- C4 counterexample: in an unsubmitted state whose stored answer for
question 1 is already `A`, calling `selectAnswer 1 A` twice in a row does
not leave the answer absent — the first call clears it and the second
call sets it back to `A`. -/
theorem selectAnswer_double_toggle_cex :
    answeredState.submitted = false ∧
    answeredState.answers 1 = some OptionKey.A ∧
    (selectAnswer (selectAnswer answeredState 1 OptionKey.A) 1
        OptionKey.A).answers 1 = some OptionKey.A ∧
    (selectAnswer (selectAnswer answeredState 1 OptionKey.A) 1
        OptionKey.A).answers 1 ≠ none := by
  refine ⟨rfl, rfl, by decide, by decide⟩

/-- C4 amended: `selectAnswer` is a no-op when submitted; otherwise it
toggles (clears an equal stored answer, overwrites otherwise), and the
double-toggle returns the answer to absent provided the stored answer did
not already equal the chosen option. -/
theorem selectAnswer_toggle (s : AttemptState) (q : Nat) (X : OptionKey) :
    (s.submitted = true → selectAnswer s q X = s) ∧
    (s.submitted = false →
      (s.answers q = some X → (selectAnswer s q X).answers q = none) ∧
      (s.answers q ≠ some X → (selectAnswer s q X).answers q = some X) ∧
      (s.answers q ≠ some X →
        (selectAnswer (selectAnswer s q X) q X).answers q = none)) := by
  constructor
  · intro h
    simp [selectAnswer, h]
  · intro h
    refine ⟨fun ha => ?_, fun ha => ?_, fun ha => ?_⟩
    · simp [selectAnswer, h, ha]
    · simp [selectAnswer, h, ha]
    · simp [selectAnswer, h, ha]

/-- Witness for C4 (amended): double-toggling `B` on question 1 of a fresh
session, where no answer is stored, ends with the answer absent. -/
theorem selectAnswer_toggle_witness :
    (selectAnswer (selectAnswer readyState 1 OptionKey.B) 1
        OptionKey.B).answers 1 = none := by
  exact ((selectAnswer_toggle readyState 1 OptionKey.B).2 rfl).2.2 (by decide)

/-- C8: `saveAndMarkForReview` never touches the answer map, records the
current index as marked for review, and advances exactly as `saveAndNext`
does (one step forward unless already at the last question). -/
theorem saveAndMarkForReview_frame (s : AttemptState) :
    (saveAndMarkForReview s).answers = s.answers ∧
    s.currentQ ∈ (saveAndMarkForReview s).markedForReview ∧
    (saveAndMarkForReview s).currentQ = (saveAndNext s).currentQ ∧
    (saveAndMarkForReview s).currentQ =
      (if (s.currentQ : Int) < (s.questions.length : Int) - 1 then
        s.currentQ + 1 else s.currentQ) := by
  refine ⟨saveAndMarkForReview_answers s, ?_, ?_, saveAndMarkForReview_currentQ s⟩
  · rw [saveAndMarkForReview_markedForReview]
    exact Finset.mem_insert_self _ _
  · rw [saveAndMarkForReview_currentQ, saveAndNext_currentQ]

/-- C2: no tick fires while loading or submitted or at zero time; a tick
keeps `timeLeft` non-negative and decrements it by exactly one; the tick
that crosses to zero performs exactly one `handleSubmit` call and reports
zero, after which a further tick is a no-op. -/
theorem timer_tick_spec (s : AttemptState) :
    (s.loading = true ∨ s.submitted = true → timerTick s = s) ∧
    (s.timeLeft ≤ 0 → timerTick s = s) ∧
    (0 ≤ s.timeLeft → 0 ≤ (timerTick s).timeLeft) ∧
    (s.loading = false → s.submitted = false → 0 < s.timeLeft →
      (timerTick s).timeLeft = s.timeLeft - 1 ∧
      (1 < s.timeLeft →
        (timerTick s).events = s.events ∧
        (timerTick s).submitted = s.submitted) ∧
      (s.timeLeft = 1 →
        timerTick s = { handleSubmit s with timeLeft := 0 } ∧
        timerTick (timerTick s) = timerTick s)) := by
  refine ⟨?_, ?_, ?_, ?_⟩
  · intro h
    unfold timerTick
    rw [if_pos (by tauto)]
  · intro h
    unfold timerTick
    rw [if_pos (Or.inl h)]
  · intro h
    unfold timerTick
    split
    · exact h
    · rename_i hguard
      split
      · simp
      · rename_i h1
        show (0 : Int) ≤ s.timeLeft - 1
        omega
  · intro hl hsub ht
    have hguard : ¬(s.timeLeft ≤ 0 ∨ s.submitted = true ∨ s.loading = true) := by
      push_neg
      exact ⟨by omega, by simp [hsub], by simp [hl]⟩
    refine ⟨?_, fun h1 => ?_, fun h1 => ?_⟩
    · unfold timerTick
      rw [if_neg hguard]
      split
      · rename_i h1
        show (0 : Int) = s.timeLeft - 1
        omega
      · rfl
    · unfold timerTick
      rw [if_neg hguard, if_neg (by omega)]
      exact ⟨rfl, rfl⟩
    · have h2 : timerTick s = { handleSubmit s with timeLeft := 0 } := by
        unfold timerTick
        rw [if_neg hguard, if_pos (by omega)]
      refine ⟨h2, ?_⟩
      rw [h2]
      unfold timerTick
      rw [if_pos (Or.inl (by simp))]

/-- Witness for C2: a tick on a freshly loaded session decrements the
clock by one, and a tick on a submitted session changes nothing. -/
theorem timer_tick_spec_witness :
    (timerTick readyState).timeLeft = readyState.timeLeft - 1 ∧
    timerTick { readyState with submitted := true } =
      { readyState with submitted := true } := by
  refine ⟨((timer_tick_spec readyState).2.2.2 rfl rfl (by decide)).1, ?_⟩
  exact (timer_tick_spec { readyState with submitted := true }).1 (Or.inr rfl)

/-- C10: with no authenticated user or no loaded quiz, `handleSubmit` is a
complete no-op (no `submitted` flip, no emitted event), and a timer expiry
in that situation zeroes the clock but produces no submission. -/
theorem submit_requires_user_and_quiz (s : AttemptState)
    (h : s.user = none ∨ s.quiz = none) :
    handleSubmit s = s ∧
    (s.loading = false → s.submitted = false → s.timeLeft = 1 →
      (timerTick s).submitted = false ∧
      (timerTick s).events = s.events ∧
      (timerTick s).timeLeft = 0 ∧
      (timerTick s).answers = s.answers) := by
  have hno : handleSubmit s = s := by
    unfold handleSubmit
    split
    · rfl
    · split
      · rename_i uid z hmatch
        cases h with
        | inl h1 => simp_all
        | inr h1 => simp_all
      · rfl
  refine ⟨hno, fun hl hsub ht => ?_⟩
  have hguard : ¬(s.timeLeft ≤ 0 ∨ s.submitted = true ∨ s.loading = true) := by
    push_neg
    exact ⟨by omega, by simp [hsub], by simp [hl]⟩
  have h2 : timerTick s = { s with timeLeft := 0 } := by
    unfold timerTick
    rw [if_neg hguard, if_pos (by omega), hno]
  rw [h2]
  exact ⟨hsub, rfl, rfl, rfl⟩

/-- A submitted session that still holds an answer for question 1. -/
def submittedState : AttemptState :=
  { answeredState with submitted := true }

/-- C5 counterexample: the controller functions themselves are not guarded
by `submitted` (only `selectAnswer` is): on a submitted state holding an
answer for question 1, calling `clearResponse` directly erases that
answer, and calling `goToQuestion 1` directly moves `currentQ`. -/
theorem post_submission_mutation_cex :
    submittedState.submitted = true ∧
    submittedState.answers 1 = some OptionKey.A ∧
    (clearResponse submittedState).answers 1 = none ∧
    submittedState.currentQ = 0 ∧
    (goToQuestion submittedState 1).currentQ = 1 := by
  exact ⟨rfl, rfl, by decide, rfl, by decide⟩

/-- C5 amended: post-submission immutability holds at the UI level for the
guarded controls — `selectAnswer` (and hence an option-card click) is a
controller-level no-op, and the action-bar buttons (save-and-next,
save-and-mark, clear-response, mark-and-next), BACK, NEXT and SUBMIT are
disabled, so their events leave the state unchanged — while a
question-grid click, which carries no disabled flag, may still change
`currentQ` and `visited` but never `answers`, `markedForReview` or
`submitted`. -/
theorem post_submission_ui_frame (s : AttemptState) (q : Nat) (X : OptionKey)
    (i : Nat) (hs : s.submitted = true) :
    selectAnswer s q X = s ∧
    uiStep s (UIAction.clickOption X) = s ∧
    uiStep s UIAction.clickSaveNext = s ∧
    uiStep s UIAction.clickSaveMarkReview = s ∧
    uiStep s UIAction.clickClearResponse = s ∧
    uiStep s UIAction.clickMarkReviewNext = s ∧
    uiStep s UIAction.clickBack = s ∧
    uiStep s UIAction.clickNext = s ∧
    uiStep s UIAction.clickSubmit = s ∧
    (uiStep s (UIAction.clickGrid i)).answers = s.answers ∧
    (uiStep s (UIAction.clickGrid i)).markedForReview = s.markedForReview ∧
    (uiStep s (UIAction.clickGrid i)).submitted = s.submitted := by
  have hsel : ∀ qn X', selectAnswer s qn X' = s := by
    intro qn X'
    simp [selectAnswer, hs]
  refine ⟨hsel q X, ?_, ?_, ?_, ?_, ?_, ?_, ?_, ?_, ?_, ?_, ?_⟩
  · show (match s.questions.get? s.currentQ with
      | some qq => selectAnswer s qq.questionNumber X
      | none => s) = s
    cases s.questions.get? s.currentQ with
    | some qq => exact hsel _ _
    | none => rfl
  · simp [uiStep, hs]
  · simp [uiStep, hs]
  · simp [uiStep, hs]
  · simp [uiStep, hs]
  · simp [uiStep, hs]
  · simp [uiStep, hs]
  · simp [uiStep, hs]
  · exact goToQuestion_answers s (i : Int)
  · exact goToQuestion_markedForReview s (i : Int)
  · exact goToQuestion_submitted s (i : Int)

/-- Witness for C5 (amended) on the concrete submitted session. -/
theorem post_submission_ui_frame_witness :
    selectAnswer submittedState 1 OptionKey.A = submittedState ∧
    uiStep submittedState UIAction.clickMarkReviewNext = submittedState ∧
    (uiStep submittedState (UIAction.clickGrid 1)).answers =
      submittedState.answers := by
  obtain ⟨h1, -, -, -, -, h6, -, -, -, h10, -, -⟩ :=
    post_submission_ui_frame submittedState 1 OptionKey.A 1 rfl
  exact ⟨h1, h6, h10⟩

/-- C6: `goToQuestion` is a no-op outside `[0, N)`; in bounds it sets
`currentQ`, records the index as visited, never touches `answers`, and an
immediate status query never reports not-visited; and every controller
operation preserves the bound `currentQ < N`. -/
theorem goToQuestion_spec (s : AttemptState) (i : Int) (qn : Nat)
    (X : OptionKey) :
    (i < 0 ∨ (s.questions.length : Int) ≤ i → goToQuestion s i = s) ∧
    (0 ≤ i → i < (s.questions.length : Int) →
      (goToQuestion s i).currentQ = i.toNat ∧
      i.toNat ∈ (goToQuestion s i).visited ∧
      (goToQuestion s i).answers = s.answers ∧
      getQuestionStatus (goToQuestion s i) i.toNat ≠
        QuestionStatus.notVisited) ∧
    (s.currentQ < s.questions.length →
      (goToQuestion s i).currentQ < s.questions.length ∧
      (saveAndNext s).currentQ < s.questions.length ∧
      (saveAndMarkForReview s).currentQ < s.questions.length ∧
      (markForReviewAndNext s).currentQ < s.questions.length ∧
      (clearResponse s).currentQ < s.questions.length ∧
      (selectAnswer s qn X).currentQ < s.questions.length ∧
      (handleSubmit s).currentQ < s.questions.length ∧
      (timerTick s).currentQ < s.questions.length) := by
  refine ⟨goToQuestion_of_out_of_bounds, fun h0 h1 => ?_, fun hlt => ?_⟩
  · exact ⟨goToQuestion_currentQ_of_inbounds h0 h1,
      goToQuestion_visited_of_inbounds h0 h1, goToQuestion_answers s i,
      getQuestionStatus_ne_notVisited (goToQuestion_visited_of_inbounds h0 h1)⟩
  · refine ⟨goToQuestion_currentQ_lt hlt, ?_, ?_, ?_, ?_, ?_, ?_, ?_⟩
    · rw [saveAndNext_currentQ]
      split <;> omega
    · rw [saveAndMarkForReview_currentQ]
      split <;> omega
    · rw [markForReviewAndNext_currentQ]
      split <;> omega
    · rw [clearResponse_currentQ]
      exact hlt
    · rw [selectAnswer_currentQ]
      exact hlt
    · rw [handleSubmit_currentQ]
      exact hlt
    · rw [timerTick_currentQ]
      exact hlt

/-- Witness for C6: on the loaded two-question session, navigating to
index 1 lands there with a non-not-visited status, while index 5 is a
no-op. -/
theorem goToQuestion_spec_witness :
    (goToQuestion readyState 1).currentQ = (1 : Int).toNat ∧
    getQuestionStatus (goToQuestion readyState 1) (1 : Int).toNat ≠
      QuestionStatus.notVisited ∧
    goToQuestion readyState 5 = readyState := by
  obtain ⟨ha, -, -, hd⟩ :=
    (goToQuestion_spec readyState 1 1 OptionKey.A).2.1 (by decide) (by decide)
  exact ⟨ha, hd, (goToQuestion_spec readyState 5 1 OptionKey.A).1 (by decide)⟩

/-- C7: `markForReviewAndNext` marks the pre-advance current question for
review, leaves its answer absent, and advances by one unless at the last
question. -/
theorem markForReviewAndNext_spec (s : AttemptState) (q : Question)
    (hq : s.questions.get? s.currentQ = some q) (hn : 1 ≤ q.questionNumber) :
    (markForReviewAndNext s).answers q.questionNumber = none ∧
    s.currentQ ∈ (markForReviewAndNext s).markedForReview ∧
    (markForReviewAndNext s).currentQ =
      if (s.currentQ : Int) < (s.questions.length : Int) - 1 then
        s.currentQ + 1
      else s.currentQ := by
  refine ⟨markForReviewAndNext_answers_cleared hq (by omega), ?_,
    markForReviewAndNext_currentQ s⟩
  rw [markForReviewAndNext_markedForReview]
  exact Finset.mem_insert_self _ _

/-- Witness for C7 on the loaded session with question 1 answered. -/
theorem markForReviewAndNext_spec_witness :
    (markForReviewAndNext answeredState).answers 1 = none ∧
    0 ∈ (markForReviewAndNext answeredState).markedForReview := by
  obtain ⟨h1, h2, -⟩ :=
    markForReviewAndNext_spec answeredState (sampleQuestion 1) (by decide)
      (by decide)
  exact ⟨h1, h2⟩

/-- A loaded two-question session with one second left and no
authenticated user. -/
def noUserState : AttemptState :=
  { loadComplete (initialState none "z1") sampleQuiz
      [sampleQuestion 1, sampleQuestion 2] with timeLeft := 1 }

/-- Witness for C10: on `noUserState`, submission is a no-op and the
expiring tick leaves the session unsubmitted. -/
theorem submit_requires_user_and_quiz_witness :
    handleSubmit noUserState = noUserState ∧
    (timerTick noUserState).submitted = false ∧
    (timerTick noUserState).events = noUserState.events := by
  obtain ⟨h1, h2⟩ := submit_requires_user_and_quiz noUserState (Or.inl rfl)
  obtain ⟨ha, hb, -, -⟩ := h2 rfl rfl rfl
  exact ⟨h1, ha, hb⟩

/-- A completed load with zero questions and a one-minute timer. -/
def emptyLoadState : AttemptState :=
  loadComplete (initialState (some "u1") "z1")
    { sampleQuiz with timerMinutes := 1 } []

set_option maxRecDepth 8192 in
/-- C9 counterexample: with an empty question set the page shows the
no-questions view, yet the countdown interval still runs (its guard checks
only `timeLeft`, `submitted` and `loading`, not the question count), so
sixty ticks after the load the session is `Submitted` and one persistence
event has been emitted — the no-questions state is not a dead end. -/
theorem no_questions_submitted_cex :
    emptyLoadState.questions = [] ∧
    emptyLoadState.submitted = false ∧
    renderView emptyLoadState = PageView.noQuestionsView ∧
    (timerTick^[60] emptyLoadState).submitted = true ∧
    (timerTick^[60] emptyLoadState).events.length = 1 := by
  refine ⟨rfl, rfl, rfl, by decide, by decide⟩

/-- C9 amended: after a load returning zero questions the page renders the
no-questions view and every UI event or timer tick keeps it there — the
question list stays empty, loading stays cleared, and the exam
(`InProgress`) view is never entered.  The state is not terminal with
respect to submission, however: with a user and quiz present the
still-running timer's crossing tick sets `submitted` and emits one
persistence event. -/
theorem no_questions_state (s : AttemptState) (a : UIAction) (u : String)
    (z : Quiz) (hq : s.questions = []) (hl : s.loading = false) :
    renderView s = PageView.noQuestionsView ∧
    (uiStep s a).questions = [] ∧
    (uiStep s a).loading = false ∧
    renderView (uiStep s a) = PageView.noQuestionsView ∧
    (timerTick s).questions = [] ∧
    (timerTick s).loading = false ∧
    renderView (timerTick s) = PageView.noQuestionsView ∧
    (s.submitted = false → s.timeLeft = 1 → s.user = some u →
      s.quiz = some z →
      (timerTick s).submitted = true ∧
      (timerTick s).events = s.events ++ [submitPayload s u]) := by
  have hrv : ∀ t : AttemptState, t.questions = [] → t.loading = false →
      renderView t = PageView.noQuestionsView := by
    intro t h1 h2
    simp [renderView, h1, h2]
  have huq : (uiStep s a).questions = [] := by
    rw [uiStep_questions]
    exact hq
  have hul : (uiStep s a).loading = false := by
    rw [uiStep_loading]
    exact hl
  have htq : (timerTick s).questions = [] := by
    rw [timerTick_questions]
    exact hq
  have htl : (timerTick s).loading = false := by
    rw [timerTick_loading]
    exact hl
  refine ⟨hrv s hq hl, huq, hul, hrv _ huq hul, htq, htl, hrv _ htq htl,
    fun hns ht hu hz => ?_⟩
  have hguard : ¬(s.timeLeft ≤ 0 ∨ s.submitted = true ∨ s.loading = true) := by
    push_neg
    exact ⟨by omega, by simp [hns], by simp [hl]⟩
  have h2 : timerTick s = { handleSubmit s with timeLeft := 0 } := by
    unfold timerTick
    rw [if_neg hguard, if_pos (by omega)]
  rw [h2, handleSubmit_not_submitted hns hu hz]
  exact ⟨rfl, rfl⟩

/-- Witness for C9 (amended): the zero-question session one second before
expiry renders the no-questions view and the expiring tick submits it. -/
theorem no_questions_state_witness :
    renderView { emptyLoadState with timeLeft := 1 } =
      PageView.noQuestionsView ∧
    (timerTick { emptyLoadState with timeLeft := 1 }).submitted = true := by
  obtain ⟨h1, -, -, -, -, -, -, h8⟩ :=
    no_questions_state { emptyLoadState with timeLeft := 1 }
      UIAction.clickSaveNext "u1" { sampleQuiz with timerMinutes := 1 } rfl rfl
  exact ⟨h1, (h8 rfl rfl rfl rfl).1⟩

end PdfToQuiz
